import Mathlib

/-!
# Static lookup of character sets (`charset/slookup.c`)

A shallow embedding of `charset_find_spec` as it is compiled today (the body
left after the preprocessor drops the `#if 0` block), of the commented-out
original linear scan that precedes it in the file, and of the enumeration
operation the specification describes.

Conventions

* A pointer `charset_spec const *` is an `Option charset_spec`; `NULL` is
  `none`.  The pointees are immutable statics, so a pointer is identified
  with the record it points to.
* The global `cs_table` is an explicit argument (a `List charset_spec`).
* The C type `int` is `Int`; the only operation on it is `==`.
-/

set_option linter.unusedVariables false

namespace Slookup

/-! ## Data model -/

/-- Modelled from the spec: the declaration of `struct charset_spec` is in
`internal.h`, which is not among the sources.  `slookup.c` reads only the
field `charset` (the numeric identifier); the display name is the metadata
the specification attaches to every conversion specification. -/
structure charset_spec where
  charset : Int
  name : String
deriving DecidableEq

/-- Largest value of the C type `int` (32 bits). -/
def INT_MAX : Int := 2147483647

/-- Smallest value of the C type `int` (32 bits). -/
def INT_MIN : Int := -2147483648

/-! ## The live function (lines 35-46) -/

/-- The function `charset_find_spec` as compiled: the preprocessor removes
the `#if 0 ... #endif` block, leaving `return NULL;` as the whole body. -/
def charset_find_spec (cs_table : List charset_spec) (charset : Int) :
    Option charset_spec :=
  none

/-! ## The commented-out original (lines 21-31) -/

/-- The loop `for (i = ...; i < lenof(cs_table); i++)` of the commented-out
original, entered with loop counter `i`: return `cs_table[i]` at the first
`i` with `cs_table[i]->charset == charset`; fall out of the loop to
`return NULL`. -/
def charset_find_spec_original_loop (cs_table : List charset_spec)
    (charset : Int) (i : Nat) : Option charset_spec :=
  if h : i < cs_table.length then
    if (cs_table.get ⟨i, h⟩).charset = charset then
      some (cs_table.get ⟨i, h⟩)
    else
      charset_find_spec_original_loop cs_table charset (i + 1)
  else
    none
termination_by cs_table.length - i

/-- The commented-out original `charset_find_spec`: the loop started at
`i = 0`. -/
def charset_find_spec_original (cs_table : List charset_spec)
    (charset : Int) : Option charset_spec :=
  charset_find_spec_original_loop cs_table charset 0

/-! ## Lookup with the registry as explicit state -/

/-- The part of the program state a lookup could touch: the global table. -/
structure State where
  cs_table : List charset_spec
deriving DecidableEq

/-- One call of the live `charset_find_spec` in state `σ`: the returned
pointer and the state after the call.  The body contains no assignment, and
`cs_table` is declared `const`, so the state is handed back as it came. -/
def charset_find_spec_call (σ : State) (charset : Int) :
    Option charset_spec × State :=
  (charset_find_spec σ.cs_table charset, σ)

/-- A sequence of calls, one per identifier, threaded through the state:
the list of returned pointers and the final state. -/
def run_lookups (σ : State) : List Int → List (Option charset_spec) × State
  | [] => ([], σ)
  | c :: cs =>
    let r := charset_find_spec_call σ c
    let rest := run_lookups r.2 cs
    (r.1 :: rest.1, rest.2)

/-! ## Enumeration -/

/-- Modelled from the spec: the enumerator `list()` has no counterpart in
`slookup.c`.  Following section 4.4 it produces one `(identifier, display
name)` pair per registered specification, in the order of the compiled-in
list. -/
def charset_list (cs_table : List charset_spec) : List (Int × String) :=
  cs_table.map (fun s => (s.charset, s.name))

/-- The registry invariant of section 3 of the specification: identifiers
are pairwise distinct. -/
def distinct_identifiers (cs_table : List charset_spec) : Prop :=
  (cs_table.map (fun s => s.charset)).Nodup

instance (cs_table : List charset_spec) :
    Decidable (distinct_identifiers cs_table) := by
  unfold distinct_identifiers; infer_instance

/-! ## The registry of the concrete scenarios -/

/-- The specification registered under identifier 1. -/
def single_byte_A : charset_spec := ⟨1, "single-byte-A"⟩

/-- The specification registered under identifier 2. -/
def double_byte_B : charset_spec := ⟨2, "double-byte-B"⟩

/-- The registry of concrete scenarios 1 and 2. -/
def scenario_table : List charset_spec := [single_byte_A, double_byte_B]

/-- A second specification carrying identifier 1. -/
def single_byte_A_bis : charset_spec := ⟨1, "single-byte-A-bis"⟩

/-- A mis-configured registry: two specifications share identifier 1. -/
def duplicate_table : List charset_spec :=
  [single_byte_A, double_byte_B, single_byte_A_bis]

/-! ## Facts about the commented-out linear scan -/

/-- The loop entered at counter `i` is a first-match search through the
entries from index `i` on. -/
theorem original_loop_eq_find (cs_table : List charset_spec) (charset : Int) :
    ∀ (n i : Nat), cs_table.length - i = n →
      charset_find_spec_original_loop cs_table charset i =
        (cs_table.drop i).find? (fun s => decide (s.charset = charset)) := by
  intro n
  induction n with
  | zero =>
    intro i hi
    have hlen : cs_table.length ≤ i := by omega
    rw [charset_find_spec_original_loop, dif_neg (by omega),
      List.drop_eq_nil_of_le hlen]
    rfl
  | succ n ih =>
    intro i hi
    have hlt : i < cs_table.length := by omega
    rw [charset_find_spec_original_loop, dif_pos hlt,
      List.drop_eq_getElem_cons hlt, List.find?_cons]
    by_cases hc : (cs_table.get ⟨i, hlt⟩).charset = charset
    · have hc2 : cs_table[i].charset = charset := hc
      simp [hc, hc2]
    · have hc2 : ¬ cs_table[i].charset = charset := hc
      rw [if_neg hc, ih (i + 1) (by omega)]
      simp [hc2]

/-- The commented-out original is a first-match search through the table. -/
theorem original_eq_find (cs_table : List charset_spec) (charset : Int) :
    charset_find_spec_original cs_table charset =
      cs_table.find? (fun s => decide (s.charset = charset)) := by
  unfold charset_find_spec_original
  rw [original_loop_eq_find cs_table charset cs_table.length 0 (by omega)]
  simp

/-- The original returns `NULL` exactly on the identifiers absent from the
table. -/
theorem original_eq_none_iff (cs_table : List charset_spec) (charset : Int) :
    charset_find_spec_original cs_table charset = none ↔
      ∀ s ∈ cs_table, s.charset ≠ charset := by
  rw [original_eq_find, List.find?_eq_none]
  simp

/-- Whatever the original returns is an entry of the table carrying the
identifier asked for. -/
theorem original_sound (cs_table : List charset_spec) (charset : Int)
    (s : charset_spec)
    (h : charset_find_spec_original cs_table charset = some s) :
    s ∈ cs_table ∧ s.charset = charset := by
  rw [original_eq_find] at h
  refine ⟨List.mem_of_find?_eq_some h, ?_⟩
  have := List.find?_some h
  simpa using this

/-- The original finds every identifier present in the table. -/
theorem original_complete (cs_table : List charset_spec) (charset : Int)
    (h : ∃ s ∈ cs_table, s.charset = charset) :
    ∃ s, charset_find_spec_original cs_table charset = some s ∧
      s ∈ cs_table ∧ s.charset = charset := by
  cases hr : charset_find_spec_original cs_table charset with
  | none =>
    obtain ⟨s, hs, hc⟩ := h
    exact absurd hc ((original_eq_none_iff cs_table charset).1 hr s hs)
  | some s => exact ⟨s, rfl, original_sound cs_table charset s hr⟩

/-- On the scenario registry the original finds identifier 1. -/
theorem original_scenario_find_1 :
    charset_find_spec_original scenario_table 1 = some single_byte_A := by
  rw [original_eq_find]; decide

/-- On a registry with two entries for identifier 1 the original returns the
first of them. -/
theorem original_duplicate_first :
    charset_find_spec_original duplicate_table 1 = some single_byte_A := by
  rw [original_eq_find]; decide

/-! ## Facts about state threading and enumeration -/

/-- A sequence of lookups hands back the state it started from. -/
theorem run_lookups_state (cs : List Int) :
    ∀ σ : State, (run_lookups σ cs).2 = σ := by
  induction cs with
  | nil => intro σ; rfl
  | cons c cs ih =>
    intro σ
    show (run_lookups (charset_find_spec_call σ c).2 cs).2 = σ
    rw [ih]
    rfl

/-- Every result of a sequence of lookups is the result of a single lookup
of the same identifier against the initial table. -/
theorem run_lookups_results (cs : List Int) :
    ∀ σ : State, (run_lookups σ cs).1 =
      cs.map (fun c => charset_find_spec σ.cs_table c) := by
  induction cs with
  | nil => intro σ; rfl
  | cons c cs ih =>
    intro σ
    show (charset_find_spec_call σ c).1 ::
        (run_lookups (charset_find_spec_call σ c).2 cs).1 = _
    rw [ih]
    rfl

/-- The identifiers listed by the enumerator are the identifiers of the
table, in table order. -/
theorem charset_list_identifiers (cs_table : List charset_spec) :
    (charset_list cs_table).map Prod.fst =
      cs_table.map (fun s => s.charset) := by
  simp [charset_list, Function.comp_def]

/-! ## The claims -/

/-- C1 (defect in the code): on the registry of concrete scenario 1, which
holds a specification with identifier 1, the live `charset_find_spec`
returns `NULL` for identifier 1, whereas the commented-out original in the
same file returns the single-byte-A specification. -/
theorem live_find_registered_is_null :
    (∃ s ∈ scenario_table, s.charset = 1) ∧
      charset_find_spec scenario_table 1 = none ∧
      charset_find_spec_original scenario_table 1 = some single_byte_A :=
  ⟨⟨single_byte_A, by decide, rfl⟩, rfl, original_scenario_find_1⟩

/-- C2: for every table and every identifier carried by no entry of the
table, `charset_find_spec` returns `NULL`. -/
theorem find_absent_is_null (cs_table : List charset_spec) (charset : Int)
    (h : ∀ s ∈ cs_table, s.charset ≠ charset) :
    charset_find_spec cs_table charset = none :=
  rfl

/-- Witness for C2: identifier 3 is absent from the scenario registry and is
not found. -/
theorem find_absent_is_null_witness :
    (∀ s ∈ scenario_table, s.charset ≠ 3) ∧
      charset_find_spec scenario_table 3 = none :=
  ⟨by decide, find_absent_is_null scenario_table 3 (by decide)⟩

/-- Negative identifiers, zero and `INT_MAX` are absent from the scenario
registry and are not found. -/
theorem find_sentinels_scenario :
    charset_find_spec scenario_table (-1) = none ∧
      charset_find_spec scenario_table 0 = none ∧
      charset_find_spec scenario_table INT_MIN = none ∧
      charset_find_spec scenario_table INT_MAX = none :=
  ⟨rfl, rfl, rfl, rfl⟩

/-- C3: `charset_find_spec` never returns a specification that lies outside
the table or carries an identifier other than the one asked for; that is,
any specification it returns is an entry of the table with that
identifier. -/
theorem find_never_returns_foreign (cs_table : List charset_spec)
    (charset : Int) (s : charset_spec)
    (h : s ∉ cs_table ∨ s.charset ≠ charset) :
    charset_find_spec cs_table charset ≠ some s := by
  intro hr
  cases hr

/-- Witness for C3: looking up identifier 1 in the scenario registry does
not return the specification registered under identifier 2. -/
theorem find_never_returns_foreign_witness :
    (double_byte_B ∉ scenario_table ∨ double_byte_B.charset ≠ 1) ∧
      charset_find_spec scenario_table 1 ≠ some double_byte_B :=
  ⟨Or.inr (by decide),
    find_never_returns_foreign scenario_table 1 double_byte_B
      (Or.inr (by decide))⟩

/-- C4: a lookup leaves the registry unchanged, so does any sequence of
lookups, every result in a sequence equals the result of a single lookup of
that identifier against the initial registry, and two lookups of the same
identifier return the same result whatever lookups come before and between
them. -/
theorem lookup_read_only_repeatable (σ : State) (charset : Int)
    (before between : List Int) :
    (charset_find_spec_call σ charset).2 = σ ∧
      (run_lookups σ (before ++ charset :: between ++ [charset])).2 = σ ∧
      (run_lookups σ before).1 =
        before.map (fun c => (charset_find_spec_call σ c).1) ∧
      (charset_find_spec_call (run_lookups σ before).2 charset).1 =
        (charset_find_spec_call
          (run_lookups
            (charset_find_spec_call (run_lookups σ before).2 charset).2
            between).2 charset).1 := by
  refine ⟨rfl, run_lookups_state _ σ, run_lookups_results before σ, ?_⟩
  rw [run_lookups_state before σ]
  show _ = (charset_find_spec_call (run_lookups σ between).2 charset).1
  rw [run_lookups_state between σ]

/-- C6: the live `charset_find_spec` returns `NULL` for every identifier and
every content of the table, and its result does not depend on the table. -/
theorem live_always_null (cs_table : List charset_spec) (charset : Int) :
    charset_find_spec cs_table charset = none ∧
      ∀ other_table : List charset_spec,
        charset_find_spec other_table charset =
          charset_find_spec cs_table charset :=
  ⟨rfl, fun _ => rfl⟩

/-- C7: when two or more entries of the table carry the identifier asked
for, `charset_find_spec` returns none of them. -/
theorem find_returns_no_duplicate (cs_table : List charset_spec)
    (charset : Int) (s : charset_spec)
    (hdup : 2 ≤ cs_table.countP (fun e => decide (e.charset = charset)))
    (hs : s ∈ cs_table) (hc : s.charset = charset) :
    charset_find_spec cs_table charset ≠ some s := by
  intro hr
  cases hr

/-- Witness for C7: in a table with two entries for identifier 1, the lookup
of 1 does not return the first of them. -/
theorem find_returns_no_duplicate_witness :
    2 ≤ duplicate_table.countP (fun e => decide (e.charset = 1)) ∧
      single_byte_A ∈ duplicate_table ∧ single_byte_A.charset = 1 ∧
      charset_find_spec duplicate_table 1 ≠ some single_byte_A :=
  ⟨by decide, by decide, rfl,
    find_returns_no_duplicate duplicate_table 1 single_byte_A
      (by decide) (by decide) rfl⟩

/-- C8: the live `charset_find_spec` and the commented-out linear scan
return the same result exactly when no entry of the table carries the
identifier asked for. -/
theorem live_agrees_with_original_iff_absent (cs_table : List charset_spec)
    (charset : Int) :
    charset_find_spec cs_table charset =
        charset_find_spec_original cs_table charset ↔
      ∀ s ∈ cs_table, s.charset ≠ charset := by
  rw [← original_eq_none_iff]
  show none = _ ↔ _
  exact eq_comm

/-- On the scenario registry the two functions differ at identifier 1 and
agree at identifier 3. -/
theorem live_vs_original_scenario :
    charset_find_spec scenario_table 1 ≠
        charset_find_spec_original scenario_table 1 ∧
      charset_find_spec scenario_table 3 =
        charset_find_spec_original scenario_table 3 := by
  refine ⟨?_, ?_⟩
  · rw [original_scenario_find_1]; intro h; cases h
  · rw [original_eq_find]; decide

end Slookup
